import Mathlib

/-!
Verification of the program in course-checker.py.

A shallow embedding of the banner course checker: the course availability
checker `check_course_api`, the notifier `send_email`, and the poll driver
(the while-loop of `main`), together with theorems settling the specification
claims about them.

Conventions of the embedding:
* The Python checker returns `True` / `False` / `None`; following the spec
  these are rendered as the tri-state `CheckResult.cont` / `CheckResult.stop`
  / `CheckResult.error`.
* Network effects are abstracted by an `HttpOutcome` the environment supplies
  for each check: either one of the request failures the `try` block catches
  (`requests.exceptions.RequestException` from the term POST or the search
  GET, or a `json.JSONDecodeError` from `response.json()`), or a parsed JSON
  payload.
* JSON field absence is modelled with `Option`; `dict.get(k)` is the `Option`
  value itself, `dict.get(k, d)` is `Option.getD d`.
* Calls to `send_email` are recorded as `(subject, body)` pairs in a list of
  attempted notifications; `print` / logging and `time.sleep` have no
  observable effect and are not modelled.
-/

/-- Tri-state outcome of one course check (`True`/`False`/`None` in Python,
`Continue`/`Stop`/`Error` in the spec). -/
inductive CheckResult where
  | cont
  | stop
  | error
deriving DecidableEq, Repr

/-- A course descriptor from `courses_to_check`.  `term_id` may be absent
(the driver tests whether the `term_id` key is in the course dict); the other
keys are
accessed unconditionally by the code. -/
structure Course where
  subject : String
  course_number : String
  crn : String
  term_id : Option String
deriving DecidableEq, Repr

/-- The `university_settings` block of the configuration. -/
structure UniversitySettings where
  base_url : String
  term_search_endpoint : String
  course_search_endpoint : String
deriving DecidableEq, Repr

/-- One entry of the `data` list of the search payload; every field the checker
reads may be absent. -/
structure SectionEntry where
  courseReferenceNumber : Option String
  seatsAvailable : Option Int
  maximumEnrollment : Option Int
deriving DecidableEq, Repr

/-- A parsed search payload.  Every field the checker reads may be absent;
`success` stands for the truthiness of the `success` value of the payload. -/
structure Payload where
  success : Option Bool
  totalCount : Option Int
  data : Option (List SectionEntry)
deriving DecidableEq, Repr

/-- Kinds of network-layer failure (`requests.exceptions.RequestException`):
connection error, timeout, or the `raise_for_status` of a non-2xx reply. -/
inductive NetFailure where
  | connectionError
  | timeout
  | nonSuccessStatus
deriving DecidableEq, Repr

/-- What the two-step HTTP exchange of one check yields: a failure of the
term-authorization POST, a failure of the course-search GET, a JSON decode
failure of the search response, or a parsed payload. -/
inductive HttpOutcome where
  | termFailure (e : NetFailure)
  | searchFailure (e : NetFailure)
  | jsonDecodeFailure
  | parsed (p : Payload)
deriving DecidableEq, Repr

/-- The rstrip call on the base URL: remove every trailing slash character. -/
def rstripSlashes (s : String) : String :=
  ⟨(s.data.reverse.dropWhile (· = '/')).reverse⟩

/-- Truthiness of the `success` value read with `dict.get`: an absent key is falsy. -/
def truthySuccess (p : Payload) : Bool :=
  p.success.getD false

/-- The `next(...)` scan: the first section whose `courseReferenceNumber` equals the CRN. -/
def findSection (crn : String) (sections : List SectionEntry) : Option SectionEntry :=
  sections.find? (fun s => s.courseReferenceNumber = some crn)

/-- The course display name: subject, course number and CRN. -/
def course_name (c : Course) : String :=
  c.subject ++ " " ++ c.course_number ++ " (CRN: " ++ c.crn ++ ")"

/-- Subject line of the seat-found notification. -/
def seat_subject (c : Course) : String :=
  "Seat available for " ++ course_name c

/-- Body of the seat-found notification. -/
def seat_body (c : Course) (seats_available capacity : Int) : String :=
  "A spot has opened up for " ++ course_name c ++ "\n\n" ++
  "Seats available: " ++ toString seats_available ++ "\n" ++
  "Total capacity: " ++ toString capacity ++ "\n\n" ++
  "Register as soon as possible!"

/-- The term-authorization URL: the base URL with trailing slashes removed,
then the term-search endpoint appended. -/
def term_search_url (uni : UniversitySettings) : String :=
  rstripSlashes uni.base_url ++ uni.term_search_endpoint

/-- The course-search URL: the stripped base URL with the course-search
endpoint appended. -/
def api_url (uni : UniversitySettings) : String :=
  rstripSlashes uni.base_url ++ uni.course_search_endpoint

/-- Everything observable about one run of `check_course_api`: its return
value, the notifications it attempted, and the two request URLs it built. -/
structure CheckRun where
  result : CheckResult
  notifications : List (String × String)
  term_search_url : String
  api_url : String
deriving DecidableEq, Repr

/-- The checker `check_course_api`.  The URLs are
built from the configuration (trailing slashes stripped from the base URL);
the two requests and the JSON parse are abstracted by `out`; the post-parse
logic follows the source line by line.  `debug_mode` only adds a print and is
not a parameter. -/
def check_course_api (uni : UniversitySettings) (course : Course)
    (out : HttpOutcome) : CheckRun :=
  match out with
  | .termFailure _ => ⟨.error, [], term_search_url uni, api_url uni⟩
  | .searchFailure _ => ⟨.error, [], term_search_url uni, api_url uni⟩
  | .jsonDecodeFailure => ⟨.error, [], term_search_url uni, api_url uni⟩
  | .parsed data =>
    if truthySuccess data = false ∨ data.totalCount = some 0 then
      ⟨.cont, [], term_search_url uni, api_url uni⟩
    else
      match findSection course.crn (data.data.getD []) with
      | none => ⟨.cont, [], term_search_url uni, api_url uni⟩
      | some target_section =>
        let seats_available := target_section.seatsAvailable.getD 0
        let capacity := target_section.maximumEnrollment.getD 0
        if seats_available > 0 then
          ⟨.stop, [(seat_subject course, seat_body course seats_available capacity)],
            term_search_url uni, api_url uni⟩
        else
          ⟨.cont, [], term_search_url uni, api_url uni⟩

/-! ## The notifier `send_email` -/

/-- The `email_settings` block of the configuration.  Every key the notifier
reads may be absent: `settings["k"]` on an absent key raises `KeyError`,
`settings.get("k")` yields `None`. -/
structure EmailSettings where
  sender_email : Option String
  receiver_email : Option String
  sms_gateway_email : Option String
  smtp_server : Option String
  smtp_port : Option Nat
  sender_password : Option String
deriving DecidableEq, Repr

/-- How the SMTP session behaves: every call succeeds, the connection raises
before any message is sent (connect / STARTTLS / login), or it raises after
the primary message was sent but before the SMS message. -/
inductive SmtpBehavior where
  | ok
  | raiseBeforeSend
  | raiseBetweenSends
deriving DecidableEq, Repr

/-- Whether a call to `send_email` returned normally or let an exception
propagate to its caller. -/
inductive SendOutcome where
  | returned
  | raised
deriving DecidableEq, Repr

/-- Truthiness of the SMS gateway address: an absent key or an empty string is falsy. -/
def smsConfigured (settings : EmailSettings) : Bool :=
  match settings.sms_gateway_email with
  | none => false
  | some t => t ≠ ""

/-- The notifier `send_email`.  Message composition (the dictionary
lookups of `sender_email` and `receiver_email` and the building of the one or
two messages) happens before the `try` block, so a `KeyError` there
propagates; everything from `smtplib.SMTP(...)` on — including the
`smtp_server`, `smtp_port` and `sender_password` lookups — is inside
`try ... except Exception`, so any exception there is swallowed.  Returns the
outcome for the caller together with the messages actually handed to
`server.send_message` as `(recipient, body)` pairs. -/
def send_email (subject body : String) (settings : EmailSettings)
    (smtp : SmtpBehavior) : SendOutcome × List (String × String) :=
  match settings.sender_email, settings.receiver_email with
  | some _, some receiver =>
    let sms_msgs :=
      match settings.sms_gateway_email with
      | some t => if t ≠ "" then [(t, subject)] else []
      | none => []
    match settings.smtp_server, settings.smtp_port, settings.sender_password with
    | some _, some _, some _ =>
      match smtp with
      | .ok => (.returned, (receiver, body) :: sms_msgs)
      | .raiseBeforeSend => (.returned, [])
      | .raiseBetweenSends => (.returned, [(receiver, body)])
    | _, _, _ => (.returned, [])
  | _, _ => (.raised, [])

/-! ## The poll driver (the loop of `main`) -/

/-- The `script_settings` block; the two delays only feed `time.sleep`. -/
structure ScriptSettings where
  consecutive_error_limit : Nat
  inter_course_delay_seconds : Nat
  main_interval_seconds : Nat
deriving DecidableEq, Repr

/-- State of the poll driver, as a state machine: running with the
current `consecutive_errors` counter, or stopped — by the seat-found `return`
or by the error-limit `return`.  A `return` ends the process, so a stopped
state carries no counter. -/
inductive LoopStatus where
  | running (consecutive_errors : Nat)
  | stoppedSeatFound
  | stoppedErrorLimit
deriving DecidableEq, Repr

/-- Subject of the consecutive-error alert. -/
def alert_subject : String := "Course Checker script has failed"

/-- Body of the consecutive-error alert. -/
def alert_body (limit : Nat) : String :=
  "The script has failed " ++ toString limit ++
  " times in a row and is shutting down. Please check the logs."

/-- Subject of the debug-mode test notification. -/
def test_subject : String := "Course Checker - Test email"

/-- Body of the debug-mode test notification. -/
def test_body : String :=
  "This is a test of your email notification settings. If you received this, the script can send emails successfully."

/-- The debug-mode test notification. -/
def test_note : String × String := (test_subject, test_body)

/-- One iteration of the body of the inner for-loop over `courses_to_check`: skip a course without `term_id` (counter untouched, limit not checked),
otherwise run the check, then update the counter — `None` increments it,
`False` returns at once, `True` resets it to zero — and return/alert when the
counter has reached the limit.  Yields the next driver state and the
notifications attempted during this iteration. -/
def processCourse (uni : UniversitySettings) (limit : Nat) (course : Course)
    (out : HttpOutcome) (consecutive_errors : Nat) :
    LoopStatus × List (String × String) :=
  if course.term_id = none then
    (.running consecutive_errors, [])
  else
    let run := check_course_api uni course out
    match run.result with
    | .error =>
      if consecutive_errors + 1 ≥ limit then
        (.stoppedErrorLimit, run.notifications ++ [(alert_subject, alert_body limit)])
      else
        (.running (consecutive_errors + 1), run.notifications)
    | .stop => (.stoppedSeatFound, run.notifications)
    | .cont =>
      if 0 ≥ limit then
        (.stoppedErrorLimit, run.notifications ++ [(alert_subject, alert_body limit)])
      else
        (.running 0, run.notifications)

/-- The course the driver handles at slot `i` of the infinite schedule: the
outer `while True` cycles over `courses_to_check` in order (`none` for an
empty list, whose cycles check nothing). -/
def slotCourse (courses : List Course) (i : Nat) : Option Course :=
  courses[i % courses.length]?

/-- One slot of the driver schedule: if still running, process the course at
slot `i` (none for an empty course list) with the outcome the oracle supplies
for that slot, accumulating its notifications; a stopped state is absorbing —
the Python `return` ended the process, so nothing further happens. -/
def driveStep (uni : UniversitySettings) (limit : Nat) (courses : List Course)
    (oracle : Nat → HttpOutcome) (i : Nat) :
    LoopStatus × List (String × String) → LoopStatus × List (String × String)
  | (.running e, notes) =>
    match slotCourse courses i with
    | none => (.running e, notes)
    | some c =>
      ((processCourse uni limit c (oracle i) e).1,
        notes ++ (processCourse uni limit c (oracle i) e).2)
  | (st, notes) => (st, notes)

/-- The driver after `n` course slots: `main` minus config loading — send the
test notification when `debug_mode` is set, then loop over the course
schedule, feeding each check the outcome `oracle` supplies for its slot.
Yields the driver state and the cumulative list of attempted
notifications. -/
def runDriver (uni : UniversitySettings) (limit : Nat) (courses : List Course)
    (debug_mode : Bool) (oracle : Nat → HttpOutcome) :
    Nat → LoopStatus × List (String × String)
  | 0 => (.running 0, if debug_mode then [test_note] else [])
  | n + 1 =>
    driveStep uni limit courses oracle n
      (runDriver uni limit courses debug_mode oracle n)

/-! ## Helper definitions and lemmas -/

/-- Containment: `small` occurs as a contiguous substring of `big`. -/
def containsSubstring (big small : String) : Prop :=
  ∃ pre post, big = pre ++ (small ++ post)

theorem check_parsed_not_error (uni : UniversitySettings) (c : Course) (p : Payload) :
    (check_course_api uni c (.parsed p)).result ≠ .error := by
  simp only [check_course_api]
  split
  · simp
  · split
    · simp
    · split <;> simp

theorem check_error_notifications (uni : UniversitySettings) (c : Course)
    (out : HttpOutcome) (h : (check_course_api uni c out).result = .error) :
    (check_course_api uni c out).notifications = [] := by
  cases out with
  | termFailure e => rfl
  | searchFailure e => rfl
  | jsonDecodeFailure => rfl
  | parsed p => exact absurd h (check_parsed_not_error uni c p)

theorem dropWhile_append_of_all {α : Type} (p : α → Bool) (xs ys : List α)
    (h : ∀ x ∈ xs, p x = true) :
    List.dropWhile p (xs ++ ys) = List.dropWhile p ys := by
  induction xs with
  | nil => simp
  | cons a as ih =>
    have ha : p a = true := h a (List.mem_cons_self a as)
    simp only [List.cons_append, List.dropWhile_cons, ha, if_true]
    exact ih fun x hx => h x (List.mem_cons_of_mem a hx)

theorem rstrip_append_slashes (b s : String) (h : ∀ ch ∈ s.data, ch = '/') :
    rstripSlashes (b ++ s) = rstripSlashes b := by
  unfold rstripSlashes
  apply String.ext
  show (List.dropWhile _ (b ++ s).data.reverse).reverse =
    (List.dropWhile _ b.data.reverse).reverse
  rw [String.data_append, List.reverse_append,
    dropWhile_append_of_all _ s.data.reverse b.data.reverse]
  intro x hx
  have hxs : x ∈ s.data := List.mem_reverse.mp hx
  simpa using h x hxs

theorem check_course_api_congr (u1 u2 : UniversitySettings) (c : Course)
    (out : HttpOutcome) (ht : term_search_url u1 = term_search_url u2)
    (ha : api_url u1 = api_url u2) :
    check_course_api u1 c out = check_course_api u2 c out := by
  cases out <;> simp only [check_course_api, ht, ha]

/-! ## The claims -/

/-- C3: for every search response whose parsed payload has a falsy
`success` flag or a `totalCount` equal to zero, the checker returns
`Continue` and issues no notification. -/
theorem C3_falsy_success_or_zero_count_continues (uni : UniversitySettings)
    (c : Course) (p : Payload)
    (h : truthySuccess p = false ∨ p.totalCount = some 0) :
    (check_course_api uni c (.parsed p)).result = .cont ∧
      (check_course_api uni c (.parsed p)).notifications = [] := by
  simp [check_course_api, if_pos h]

/-- Witness for C3 at the scenario payload
`{"success": true, "totalCount": 0, "data": []}`. -/
theorem C3_witness :
    (truthySuccess ⟨some true, some 0, some []⟩ = false ∨
      (Payload.mk (some true) (some 0) (some [])).totalCount = some 0) ∧
    ((check_course_api ⟨"https://u", "/term", "/search"⟩
        ⟨"CS", "101", "12345", some "202509"⟩
        (.parsed ⟨some true, some 0, some []⟩)).result = .cont ∧
      (check_course_api ⟨"https://u", "/term", "/search"⟩
        ⟨"CS", "101", "12345", some "202509"⟩
        (.parsed ⟨some true, some 0, some []⟩)).notifications = []) :=
  ⟨Or.inr rfl,
    C3_falsy_success_or_zero_count_continues ⟨"https://u", "/term", "/search"⟩
      ⟨"CS", "101", "12345", some "202509"⟩ ⟨some true, some 0, some []⟩ (Or.inr rfl)⟩

/-- C4: the checker returns `Error` exactly when a network-layer failure
occurs (on the term-authorization POST or the course-search GET) or when the
response body fails to parse as JSON; a parsed (structurally valid) response
never yields `Error`, so `Error` is distinct from the `Continue` produced by
a valid no-seats response. -/
theorem C4_error_iff_network_or_json_failure (uni : UniversitySettings)
    (c : Course) (out : HttpOutcome) :
    ((check_course_api uni c out).result = .error ↔
      (∃ e, out = .termFailure e) ∨ (∃ e, out = .searchFailure e) ∨
        out = .jsonDecodeFailure) ∧
    (∀ p, out = .parsed p → (check_course_api uni c out).result ≠ .error) := by
  constructor
  · constructor
    · intro h
      cases out with
      | termFailure e => exact Or.inl ⟨e, rfl⟩
      | searchFailure e => exact Or.inr (Or.inl ⟨e, rfl⟩)
      | jsonDecodeFailure => exact Or.inr (Or.inr rfl)
      | parsed p => exact absurd h (check_parsed_not_error uni c p)
    · rintro (⟨e, rfl⟩ | ⟨e, rfl⟩ | rfl) <;> rfl
  · rintro p rfl
    exact check_parsed_not_error uni c p

/-- C9: the post-parse logic is total on absent fields: absent `success`
is falsy (`Continue`), an absent `data` list is treated as empty (`Continue`),
an entry with no `courseReferenceNumber` never matches, absent
`seatsAvailable` defaults to 0 (so the match is treated as full and yields
`Continue`), and an absent `totalCount` does not trigger the "no sections
found" branch — with truthy `success` the scan still runs and can `Stop`. -/
theorem C9_total_on_absent_fields (uni : UniversitySettings) (c : Course) (p : Payload) :
    (p.success = none →
      (check_course_api uni c (.parsed p)).result = .cont ∧
        (check_course_api uni c (.parsed p)).notifications = []) ∧
    (p.data = none →
      (check_course_api uni c (.parsed p)).result = .cont ∧
        (check_course_api uni c (.parsed p)).notifications = []) ∧
    (∀ sections s, findSection c.crn sections = some s →
      s.courseReferenceNumber = some c.crn) ∧
    (∀ s, findSection c.crn (p.data.getD []) = some s → s.seatsAvailable = none →
      (check_course_api uni c (.parsed p)).result = .cont) ∧
    (p.totalCount = none → truthySuccess p = true →
      ∀ s, findSection c.crn (p.data.getD []) = some s →
        0 < s.seatsAvailable.getD 0 →
        (check_course_api uni c (.parsed p)).result = .stop) := by
  refine ⟨?_, ?_, ?_, ?_, ?_⟩
  · intro h
    have hs : truthySuccess p = false := by simp [truthySuccess, h]
    simp [check_course_api, if_pos (Or.inl hs)]
  · intro h
    by_cases hcond : truthySuccess p = false ∨ p.totalCount = some 0
    · simp [check_course_api, if_pos hcond]
    · have hnone : findSection c.crn (p.data.getD []) = none := by
        simp [h, findSection]
      simp [check_course_api, if_neg hcond, hnone]
  · intro sections s hfind
    simp only [findSection] at hfind
    have h := List.find?_some hfind
    simpa using h
  · intro s hfind hnone
    by_cases hcond : truthySuccess p = false ∨ p.totalCount = some 0
    · simp [check_course_api, if_pos hcond]
    · simp [check_course_api, if_neg hcond, hfind, hnone]
  · intro htc hs s hfind hpos
    have hcond : ¬(truthySuccess p = false ∨ p.totalCount = some 0) := by
      rintro (h | h)
      · rw [hs] at h; cases h
      · rw [htc] at h; cases h
    simp [check_course_api, if_neg hcond, hfind, if_pos hpos]

/-- Witness for C9: the all-absent payload yields `Continue` with no
notification, and a payload with truthy `success`, absent `totalCount` and a
matching open section yields `Stop`. -/
theorem C9_witness :
    ((check_course_api ⟨"https://u", "/term", "/search"⟩
        ⟨"CS", "101", "12345", some "202509"⟩
        (.parsed ⟨none, none, none⟩)).result = .cont ∧
      (check_course_api ⟨"https://u", "/term", "/search"⟩
        ⟨"CS", "101", "12345", some "202509"⟩
        (.parsed ⟨none, none, none⟩)).notifications = []) ∧
    (check_course_api ⟨"https://u", "/term", "/search"⟩
        ⟨"CS", "101", "12345", some "202509"⟩
        (.parsed ⟨some true, none, some [⟨some "12345", some 3, some 30⟩]⟩)).result
      = .stop :=
  ⟨(C9_total_on_absent_fields ⟨"https://u", "/term", "/search"⟩
      ⟨"CS", "101", "12345", some "202509"⟩ ⟨none, none, none⟩).1 rfl,
    (C9_total_on_absent_fields ⟨"https://u", "/term", "/search"⟩
      ⟨"CS", "101", "12345", some "202509"⟩
      ⟨some true, none, some [⟨some "12345", some 3, some 30⟩]⟩).2.2.2.2
      rfl rfl ⟨some "12345", some 3, some 30⟩ (by decide) (by decide)⟩

/-- C1: for a parsed payload with truthy `success` and nonzero
`totalCount`, the checker scans the result list for the target CRN: no match
yields `Continue`; a match with `seatsAvailable <= 0` (absent fields
defaulting to 0) yields `Continue`; a match with `seatsAvailable > 0` yields
`Stop` with exactly one attempted notification whose body contains the seat
count and the capacity. -/
theorem C1_scan_matched_entry (uni : UniversitySettings) (c : Course)
    (p : Payload) (tc : Int) (hs : truthySuccess p = true)
    (htc : p.totalCount = some tc) (hnz : tc ≠ 0) :
    (findSection c.crn (p.data.getD []) = none →
      (check_course_api uni c (.parsed p)).result = .cont ∧
        (check_course_api uni c (.parsed p)).notifications = []) ∧
    (∀ s, findSection c.crn (p.data.getD []) = some s →
      (s.seatsAvailable.getD 0 ≤ 0 →
        (check_course_api uni c (.parsed p)).result = .cont ∧
          (check_course_api uni c (.parsed p)).notifications = []) ∧
      (0 < s.seatsAvailable.getD 0 →
        (check_course_api uni c (.parsed p)).result = .stop ∧
        (check_course_api uni c (.parsed p)).notifications =
          [(seat_subject c,
            seat_body c (s.seatsAvailable.getD 0) (s.maximumEnrollment.getD 0))] ∧
        containsSubstring
          (seat_body c (s.seatsAvailable.getD 0) (s.maximumEnrollment.getD 0))
          (toString (s.seatsAvailable.getD 0)) ∧
        containsSubstring
          (seat_body c (s.seatsAvailable.getD 0) (s.maximumEnrollment.getD 0))
          (toString (s.maximumEnrollment.getD 0)))) := by
  have hcond : ¬(truthySuccess p = false ∨ p.totalCount = some 0) := by
    rintro (h | h)
    · rw [hs] at h; cases h
    · rw [htc] at h
      exact hnz (by injection h)
  refine ⟨?_, ?_⟩
  · intro hnone
    simp [check_course_api, if_neg hcond, hnone]
  · intro s hfind
    constructor
    · intro hle
      have hnotpos : ¬(0 < s.seatsAvailable.getD 0) := not_lt.mpr hle
      simp [check_course_api, if_neg hcond, hfind, if_neg hnotpos]
    · intro hpos
      refine ⟨?_, ?_, ?_, ?_⟩
      · simp [check_course_api, if_neg hcond, hfind, if_pos hpos]
      · simp [check_course_api, if_neg hcond, hfind, if_pos hpos]
      · exact ⟨"A spot has opened up for " ++ course_name c ++ "\n\n" ++
            "Seats available: ",
          "\n" ++ "Total capacity: " ++ toString (s.maximumEnrollment.getD 0) ++
            "\n\n" ++ "Register as soon as possible!",
          by simp [seat_body, String.append_assoc]⟩
      · exact ⟨"A spot has opened up for " ++ course_name c ++ "\n\n" ++
            "Seats available: " ++ toString (s.seatsAvailable.getD 0) ++ "\n" ++
            "Total capacity: ",
          "\n\n" ++ "Register as soon as possible!",
          by simp [seat_body, String.append_assoc]⟩

/-- Witness for C1 at the scenario payload: CRN `12345`, 2 seats of
30; the checker stops and attempts the one seat-found notification. -/
theorem C1_witness :
    truthySuccess ⟨some true, some 1, some [⟨some "12345", some 2, some 30⟩]⟩ = true ∧
    (1 : Int) ≠ 0 ∧
    ((check_course_api ⟨"https://u", "/term", "/search"⟩
        ⟨"CS", "101", "12345", some "202509"⟩
        (.parsed ⟨some true, some 1,
          some [⟨some "12345", some 2, some 30⟩]⟩)).result = .stop ∧
      (check_course_api ⟨"https://u", "/term", "/search"⟩
        ⟨"CS", "101", "12345", some "202509"⟩
        (.parsed ⟨some true, some 1,
          some [⟨some "12345", some 2, some 30⟩]⟩)).notifications =
        [(seat_subject ⟨"CS", "101", "12345", some "202509"⟩,
          seat_body ⟨"CS", "101", "12345", some "202509"⟩
            ((SectionEntry.mk (some "12345") (some 2) (some 30)).seatsAvailable.getD 0)
            ((SectionEntry.mk (some "12345") (some 2) (some 30)).maximumEnrollment.getD 0))] ∧
      containsSubstring
        (seat_body ⟨"CS", "101", "12345", some "202509"⟩
          ((SectionEntry.mk (some "12345") (some 2) (some 30)).seatsAvailable.getD 0)
          ((SectionEntry.mk (some "12345") (some 2) (some 30)).maximumEnrollment.getD 0))
        (toString ((SectionEntry.mk (some "12345") (some 2) (some 30)).seatsAvailable.getD 0)) ∧
      containsSubstring
        (seat_body ⟨"CS", "101", "12345", some "202509"⟩
          ((SectionEntry.mk (some "12345") (some 2) (some 30)).seatsAvailable.getD 0)
          ((SectionEntry.mk (some "12345") (some 2) (some 30)).maximumEnrollment.getD 0))
        (toString ((SectionEntry.mk (some "12345") (some 2) (some 30)).maximumEnrollment.getD 0))) :=
  ⟨rfl, by decide,
    ((C1_scan_matched_entry ⟨"https://u", "/term", "/search"⟩
        ⟨"CS", "101", "12345", some "202509"⟩
        ⟨some true, some 1, some [⟨some "12345", some 2, some 30⟩]⟩ 1
        rfl rfl (by decide)).2
      ⟨some "12345", some 2, some 30⟩ (by decide)).2 (by decide)⟩

/-- C10: trailing slash characters of the configured base URL are
stripped before the endpoint paths are appended, so two configurations whose
`base_url` values differ only in trailing slashes build identical request
URLs and give identical checker behavior. -/
theorem C10_trailing_slashes_irrelevant (b s1 s2 tse cse : String)
    (h1 : ∀ ch ∈ s1.data, ch = '/') (h2 : ∀ ch ∈ s2.data, ch = '/')
    (c : Course) (out : HttpOutcome) :
    term_search_url ⟨b ++ s1, tse, cse⟩ = term_search_url ⟨b ++ s2, tse, cse⟩ ∧
    api_url ⟨b ++ s1, tse, cse⟩ = api_url ⟨b ++ s2, tse, cse⟩ ∧
    check_course_api ⟨b ++ s1, tse, cse⟩ c out =
      check_course_api ⟨b ++ s2, tse, cse⟩ c out := by
  have hb : rstripSlashes (b ++ s1) = rstripSlashes (b ++ s2) := by
    rw [rstrip_append_slashes b s1 h1, rstrip_append_slashes b s2 h2]
  have ht : term_search_url ⟨b ++ s1, tse, cse⟩ = term_search_url ⟨b ++ s2, tse, cse⟩ := by
    simp only [term_search_url, hb]
  have ha : api_url ⟨b ++ s1, tse, cse⟩ = api_url ⟨b ++ s2, tse, cse⟩ := by
    simp only [api_url, hb]
  exact ⟨ht, ha, check_course_api_congr _ _ c out ht ha⟩

/-- Witness for C10: `"https://u/"` and `"https://u///"` give the same URLs
and the same check run. -/
theorem C10_witness :
    (∀ ch ∈ ("/" : String).data, ch = '/') ∧
    (∀ ch ∈ ("///" : String).data, ch = '/') ∧
    (term_search_url ⟨"https://u" ++ "/", "/term", "/search"⟩ =
        term_search_url ⟨"https://u" ++ "///", "/term", "/search"⟩ ∧
      api_url ⟨"https://u" ++ "/", "/term", "/search"⟩ =
        api_url ⟨"https://u" ++ "///", "/term", "/search"⟩ ∧
      check_course_api ⟨"https://u" ++ "/", "/term", "/search"⟩
          ⟨"CS", "101", "12345", some "202509"⟩ .jsonDecodeFailure =
        check_course_api ⟨"https://u" ++ "///", "/term", "/search"⟩
          ⟨"CS", "101", "12345", some "202509"⟩ .jsonDecodeFailure) :=
  ⟨by decide, by decide,
    C10_trailing_slashes_irrelevant "https://u" "/" "///" "/term" "/search"
      (by decide) (by decide) ⟨"CS", "101", "12345", some "202509"⟩ .jsonDecodeFailure⟩

/-- C6, counterexample: an exception raised during message composition is
*not* caught: with `sender_email` absent from `email_settings`, the
`settings["sender_email"]` lookup raises before the `try` block and the
exception propagates out of `send_email` (even though the SMTP layer itself
is fine). -/
theorem C6_counterexample :
    (send_email "s" "b"
      ⟨none, some "r@example.com", none, some "smtp.example.com", some 587,
        some "pw"⟩ .ok).1 = .raised := rfl

/-- C6, amended: exceptions raised during the *sending* phase (the
`try` block: server/port/credential lookups, connect, STARTTLS, login, the
sends) are caught and swallowed, so `send_email` returns normally for every
SMTP behavior and every sending configuration — provided composition
succeeded, i.e. `sender_email` and `receiver_email` are present.  Exceptions
during composition, which happens before the `try`, propagate. -/
theorem C6_sending_phase_exceptions_swallowed (subject body : String)
    (settings : EmailSettings) (smtp : SmtpBehavior)
    (hs : settings.sender_email ≠ none) (hr : settings.receiver_email ≠ none) :
    (send_email subject body settings smtp).1 = .returned := by
  obtain ⟨se, hse⟩ := Option.ne_none_iff_exists'.mp hs
  obtain ⟨re, hre⟩ := Option.ne_none_iff_exists'.mp hr
  cases hsrv : settings.smtp_server <;> cases hprt : settings.smtp_port <;>
    cases hpw : settings.sender_password <;> cases smtp <;>
      simp [send_email, hse, hre, hsrv, hprt, hpw]

/-- Witness for the amended C6: with both addresses configured the call
returns normally even when the SMTP connection raises before any send. -/
theorem C6_witness :
    ((⟨some "s@example.com", some "r@example.com", none, some "smtp.example.com",
        some 587, some "pw"⟩ : EmailSettings).sender_email ≠ none) ∧
    ((⟨some "s@example.com", some "r@example.com", none, some "smtp.example.com",
        some 587, some "pw"⟩ : EmailSettings).receiver_email ≠ none) ∧
    (send_email "subject" "body"
      ⟨some "s@example.com", some "r@example.com", none, some "smtp.example.com",
        some 587, some "pw"⟩ .raiseBeforeSend).1 = .returned :=
  ⟨by decide, by decide,
    C6_sending_phase_exceptions_swallowed "subject" "body"
      ⟨some "s@example.com", some "r@example.com", none, some "smtp.example.com",
        some 587, some "pw"⟩ .raiseBeforeSend (by decide) (by decide)⟩

/-! ## Driver lemmas -/

theorem runDriver_succ (uni : UniversitySettings) (limit : Nat)
    (courses : List Course) (debug : Bool) (oracle : Nat → HttpOutcome) (n : Nat) :
    runDriver uni limit courses debug oracle (n + 1) =
      driveStep uni limit courses oracle n
        (runDriver uni limit courses debug oracle n) := rfl

theorem driveStep_stopped (uni : UniversitySettings) (limit : Nat)
    (courses : List Course) (oracle : Nat → HttpOutcome) (i : Nat)
    (st : LoopStatus) (notes : List (String × String))
    (h : st = .stoppedSeatFound ∨ st = .stoppedErrorLimit) :
    driveStep uni limit courses oracle i (st, notes) = (st, notes) := by
  rcases h with rfl | rfl <;> rfl

/-- C2: with a term identifier present and a positive configured limit,
one course iteration behaves as: a `Continue` result resets the counter to
zero; an `Error` result increments it by exactly one, and if the incremented
counter has reached the limit, exactly one alert notification is attempted
and the loop stops; a `Stop` result terminates the loop at once (the counter
dies with the process). -/
theorem C2_consecutive_error_counter (uni : UniversitySettings) (limit : Nat)
    (c : Course) (out : HttpOutcome) (e : Nat) (t : String)
    (hterm : c.term_id = some t) (hlim : 1 ≤ limit) :
    ((check_course_api uni c out).result = .cont →
      processCourse uni limit c out e =
        (.running 0, (check_course_api uni c out).notifications)) ∧
    ((check_course_api uni c out).result = .error → e + 1 < limit →
      processCourse uni limit c out e = (.running (e + 1), [])) ∧
    ((check_course_api uni c out).result = .error → limit ≤ e + 1 →
      processCourse uni limit c out e =
        (.stoppedErrorLimit, [(alert_subject, alert_body limit)])) ∧
    ((check_course_api uni c out).result = .stop →
      processCourse uni limit c out e =
        (.stoppedSeatFound, (check_course_api uni c out).notifications)) := by
  have hterm' : ¬ c.term_id = none := by rw [hterm]; simp
  refine ⟨?_, ?_, ?_, ?_⟩
  · intro hres
    have h0 : ¬ (0 ≥ limit) := by omega
    simp [processCourse, hterm', hres, h0]
  · intro hres hlt
    have h1 : ¬ (e + 1 ≥ limit) := by omega
    simp [processCourse, hterm', hres, h1, check_error_notifications uni c out hres]
  · intro hres hge
    have h1 : e + 1 ≥ limit := hge
    simp [processCourse, hterm', hres, h1, check_error_notifications uni c out hres]
  · intro hres
    simp [processCourse, hterm', hres]

/-- Witness for C2: a JSON decode failure at counter 0 with limit 3
increments the counter to 1. -/
theorem C2_witness :
    (Course.mk "CS" "101" "12345" (some "202509")).term_id = some "202509" ∧
    1 ≤ 3 ∧
    (check_course_api ⟨"https://u", "/term", "/search"⟩
      ⟨"CS", "101", "12345", some "202509"⟩ .jsonDecodeFailure).result = .error ∧
    0 + 1 < 3 ∧
    processCourse ⟨"https://u", "/term", "/search"⟩ 3
      ⟨"CS", "101", "12345", some "202509"⟩ .jsonDecodeFailure 0 =
      (.running (0 + 1), []) :=
  ⟨rfl, by decide, rfl, by decide,
    (C2_consecutive_error_counter ⟨"https://u", "/term", "/search"⟩ 3
      ⟨"CS", "101", "12345", some "202509"⟩ .jsonDecodeFailure 0 "202509"
      rfl (by decide)).2.1 rfl (by decide)⟩

/-- C7: a course descriptor lacking a term identifier never reaches the
checker — the outcome of the iteration is the same whatever the network would
have answered — the counter is unchanged, no notification is attempted, the
driver stays running and simply moves on to the next slot with state and
trace untouched. -/
theorem C7_missing_term_id_skipped (uni : UniversitySettings) (limit : Nat)
    (c : Course) (e : Nat) (h : c.term_id = none) :
    (∀ out, processCourse uni limit c out e = (.running e, [])) ∧
    (∀ courses debug oracle n notes,
      slotCourse courses n = some c →
      runDriver uni limit courses debug oracle n = (.running e, notes) →
      runDriver uni limit courses debug oracle (n + 1) = (.running e, notes)) := by
  have hskip : ∀ out, processCourse uni limit c out e = (.running e, []) := by
    intro out
    simp [processCourse, h]
  refine ⟨hskip, ?_⟩
  intro courses debug oracle n notes hslot hrun
  rw [runDriver_succ, hrun]
  show driveStep uni limit courses oracle n (.running e, notes) = _
  simp [driveStep, hslot, hskip]

/-- Witness for C7: a course with no `term_id` at slot 0 leaves the driver
state untouched. -/
theorem C7_witness :
    (Course.mk "CS" "101" "12345" none).term_id = none ∧
    processCourse ⟨"https://u", "/term", "/search"⟩ 3
      ⟨"CS", "101", "12345", none⟩ .jsonDecodeFailure 0 = (.running 0, []) ∧
    (slotCourse [⟨"CS", "101", "12345", none⟩] 0 = some ⟨"CS", "101", "12345", none⟩ →
      runDriver ⟨"https://u", "/term", "/search"⟩ 3 [⟨"CS", "101", "12345", none⟩]
        false (fun _ => .jsonDecodeFailure) 0 = (.running 0, []) →
      runDriver ⟨"https://u", "/term", "/search"⟩ 3 [⟨"CS", "101", "12345", none⟩]
        false (fun _ => .jsonDecodeFailure) 1 = (.running 0, [])) :=
  ⟨rfl,
    (C7_missing_term_id_skipped ⟨"https://u", "/term", "/search"⟩ 3
      ⟨"CS", "101", "12345", none⟩ 0 rfl).1 .jsonDecodeFailure,
    (C7_missing_term_id_skipped ⟨"https://u", "/term", "/search"⟩ 3
      ⟨"CS", "101", "12345", none⟩ 0 rfl).2 [⟨"CS", "101", "12345", none⟩]
      false (fun _ => .jsonDecodeFailure) 0 []⟩

theorem seat_subject_ne_test (c : Course) : seat_subject c ≠ test_subject := by
  intro h
  have hd := congrArg String.data h
  rw [seat_subject, String.data_append] at hd
  have e1 : List.head? (("Seat available for ").data ++ (course_name c).data) =
      some 'S' := rfl
  have e2 : List.head? test_subject.data = some 'C' := rfl
  rw [hd, e2] at e1
  exact absurd e1 (by decide)

theorem check_no_test_note (uni : UniversitySettings) (c : Course)
    (out : HttpOutcome) :
    test_note ∉ (check_course_api uni c out).notifications := by
  cases out with
  | termFailure e => simp [check_course_api]
  | searchFailure e => simp [check_course_api]
  | jsonDecodeFailure => simp [check_course_api]
  | parsed p =>
    simp only [check_course_api]
    split
    · simp
    · split
      · simp
      · split
        · intro hmem
          rw [List.mem_singleton] at hmem
          exact seat_subject_ne_test c (congrArg Prod.fst hmem).symm
        · simp

theorem alert_note_ne_test (limit : Nat) :
    test_note ≠ (alert_subject, alert_body limit) := by
  intro h
  have h1 : test_subject = alert_subject := congrArg Prod.fst h
  exact absurd h1 (by decide)

theorem processCourse_no_test_note (uni : UniversitySettings) (limit : Nat)
    (c : Course) (out : HttpOutcome) (e : Nat) :
    test_note ∉ (processCourse uni limit c out e).2 := by
  have hchk := check_no_test_note uni c out
  have halert := alert_note_ne_test limit
  by_cases hterm : c.term_id = none
  · simp [processCourse, hterm]
  · simp only [processCourse, if_neg hterm]
    split
    · split
      · simp_all
      · simp_all
    · simp_all
    · split
      · simp_all
      · simp_all

theorem runDriver_no_test_note (uni : UniversitySettings) (limit : Nat)
    (courses : List Course) (oracle : Nat → HttpOutcome) (n : Nat) :
    test_note ∉ (runDriver uni limit courses false oracle n).2 := by
  induction n with
  | zero => simp [runDriver]
  | succ n ih =>
    rw [runDriver_succ]
    rcases h : runDriver uni limit courses false oracle n with ⟨st, notes⟩
    rw [h] at ih
    cases st with
    | running e =>
      rcases hs : slotCourse courses n with _ | c
      · simpa [driveStep, hs] using ih
      · simp only [driveStep, hs, List.mem_append]
        rintro (hmem | hmem)
        · exact ih hmem
        · exact processCourse_no_test_note uni limit c (oracle n) e hmem
    | stoppedSeatFound => simpa [driveStep] using ih
    | stoppedErrorLimit => simpa [driveStep] using ih

theorem runDriver_debug_shift (uni : UniversitySettings) (limit : Nat)
    (courses : List Course) (oracle : Nat → HttpOutcome) (n : Nat) :
    runDriver uni limit courses true oracle n =
      ((runDriver uni limit courses false oracle n).1,
        test_note :: (runDriver uni limit courses false oracle n).2) := by
  induction n with
  | zero => rfl
  | succ n ih =>
    rw [runDriver_succ, runDriver_succ, ih]
    rcases h : runDriver uni limit courses false oracle n with ⟨st, notes⟩
    cases st with
    | running e =>
      rcases hs : slotCourse courses n with _ | c <;>
        simp [driveStep, hs]
    | stoppedSeatFound => rfl
    | stoppedErrorLimit => rfl

/-- C8: if and only if the debug flag is set, exactly one test
notification is sent, and it precedes the first course check: the trace
before any slot is exactly the test notification (debug) or empty (no
debug); afterwards the debug trace is always the test notification followed
by the debug-off trace — the same whatever the check outcomes — and the
debug-off trace never contains the test notification. -/
theorem C8_debug_test_notification (uni : UniversitySettings) (limit : Nat)
    (courses : List Course) (oracle : Nat → HttpOutcome) (n : Nat) :
    (runDriver uni limit courses true oracle 0).2 = [test_note] ∧
    (runDriver uni limit courses false oracle 0).2 = [] ∧
    (runDriver uni limit courses true oracle n).1 =
      (runDriver uni limit courses false oracle n).1 ∧
    (runDriver uni limit courses true oracle n).2 =
      test_note :: (runDriver uni limit courses false oracle n).2 ∧
    test_note ∉ (runDriver uni limit courses false oracle n).2 := by
  refine ⟨rfl, rfl, ?_, ?_, runDriver_no_test_note uni limit courses oracle n⟩
  · rw [runDriver_debug_shift]
  · rw [runDriver_debug_shift]

/-- C5: with a positive configured limit, a stopped driver state is
absorbing (after a `Stop` no further course is checked, no cycle begins and
no notification is added), and from a running state the driver stops in
exactly two ways — a seat-found `Stop` of the check at that slot, or an `Error`
that pushes the counter to the limit, in which case exactly the one alert
notification is appended; under any other outcome the driver is still
running, so absent these conditions the loop runs forever. -/
theorem C5_termination_only_seat_or_error_limit (uni : UniversitySettings)
    (limit : Nat) (courses : List Course) (debug : Bool)
    (oracle : Nat → HttpOutcome) (hlim : 1 ≤ limit) (n : Nat) :
    (∀ st notes, runDriver uni limit courses debug oracle n = (st, notes) →
      st = .stoppedSeatFound ∨ st = .stoppedErrorLimit →
      runDriver uni limit courses debug oracle (n + 1) = (st, notes)) ∧
    (∀ e notes,
      runDriver uni limit courses debug oracle n = (.running e, notes) →
      ((runDriver uni limit courses debug oracle (n + 1)).1 = .stoppedSeatFound ↔
        (∃ c, slotCourse courses n = some c ∧ ¬ c.term_id = none ∧
          (check_course_api uni c (oracle n)).result = .stop)) ∧
      ((runDriver uni limit courses debug oracle (n + 1)).1 = .stoppedErrorLimit ↔
        (∃ c, slotCourse courses n = some c ∧ ¬ c.term_id = none ∧
          (check_course_api uni c (oracle n)).result = .error ∧ limit ≤ e + 1)) ∧
      ((runDriver uni limit courses debug oracle (n + 1)).1 = .stoppedErrorLimit →
        (runDriver uni limit courses debug oracle (n + 1)).2 =
          notes ++ [(alert_subject, alert_body limit)]) ∧
      ((¬ ∃ c, slotCourse courses n = some c ∧ ¬ c.term_id = none ∧
          ((check_course_api uni c (oracle n)).result = .stop ∨
            ((check_course_api uni c (oracle n)).result = .error ∧
              limit ≤ e + 1))) →
        ∃ e', (runDriver uni limit courses debug oracle (n + 1)).1 =
          .running e')) := by
  constructor
  · intro st notes h hstop
    rw [runDriver_succ, h]
    exact driveStep_stopped uni limit courses oracle n st notes hstop
  · intro e notes h
    rw [runDriver_succ, h]
    rcases hs : slotCourse courses n with _ | c
    · simp [driveStep, hs]
    · by_cases hterm : c.term_id = none
      · have hskip : processCourse uni limit c (oracle n) e = (.running e, []) := by
          simp [processCourse, hterm]
        simp [driveStep, hs, hskip, hterm]
      · cases hres : (check_course_api uni c (oracle n)).result with
        | cont =>
          have h0 : ¬ (0 ≥ limit) := by omega
          have hp : processCourse uni limit c (oracle n) e =
              (.running 0, (check_course_api uni c (oracle n)).notifications) := by
            simp [processCourse, hterm, hres, h0]
          simp [driveStep, hs, hp, hres, hterm]
        | stop =>
          have hp : processCourse uni limit c (oracle n) e =
              (.stoppedSeatFound, (check_course_api uni c (oracle n)).notifications) := by
            simp [processCourse, hterm, hres]
          simp [driveStep, hs, hp, hres, hterm]
        | error =>
          have hnotes := check_error_notifications uni c (oracle n) hres
          by_cases hge : limit ≤ e + 1
          · have hp : processCourse uni limit c (oracle n) e =
                (.stoppedErrorLimit, [(alert_subject, alert_body limit)]) := by
              have h1 : e + 1 ≥ limit := hge
              simp [processCourse, hterm, hres, h1, hnotes]
            simp [driveStep, hs, hp, hres, hterm, hge]
          · have h1 : ¬ (e + 1 ≥ limit) := hge
            have hp : processCourse uni limit c (oracle n) e =
                (.running (e + 1), []) := by
              simp [processCourse, hterm, hres, h1, hnotes]
            simp [driveStep, hs, hp, hres, hterm, h1]

/-- Witness for C5: limit 1, a single course, a JSON decode failure at slot
0 — the driver stops with exactly the alert notification appended. -/
theorem C5_witness :
    1 ≤ 1 ∧
    (runDriver ⟨"https://u", "/term", "/search"⟩ 1
      [⟨"CS", "101", "12345", some "202509"⟩] false
      (fun _ => .jsonDecodeFailure) 1).2 =
      [] ++ [(alert_subject, alert_body 1)] :=
  ⟨by decide,
    ((C5_termination_only_seat_or_error_limit ⟨"https://u", "/term", "/search"⟩ 1
        [⟨"CS", "101", "12345", some "202509"⟩] false
        (fun _ => .jsonDecodeFailure) (by decide) 0).2 0 [] rfl).2.2.1
      (by decide)⟩

